import Mathlib

/-!
Verification of the gbe_fork_helper tool (Go) against its specification.

The development shallowly embeds the relevant source functions:
  * util.BackupAndReplace  (file backup-and-substitute)
  * util.DownloadAndExtract (archive download, tar.bz2 / 7z extraction,
    layout normalization)
  * github.UpdateGBE        (release update orchestration)
  * gbe.ApplyGBE            (per-platform patch orchestration)
  * steam.FetchDLCs         (DLC discovery and config generation)

Filesystem state is modelled as association lists from paths to byte
contents; I/O outcomes that depend on the environment (network, external
processes, the OS) are supplied as explicit parameters.  Each operation
additionally returns a trace of the externally visible effects it
performed, in order, so that ordering and absence of effects can be
stated.
-/

set_option autoImplicit false

namespace GbeForkHelper

/-- File contents as a byte sequence. -/
abbrev Bytes := List Nat

/-- A flat filesystem: an association list from path strings to contents.
Earlier entries shadow later ones with the same key. -/
abbrev FS := List (String × Bytes)

/-- Lookup a path in the filesystem (models `os.Stat` / reading a file). -/
def lookupFS : FS → String → Option Bytes
  | [], _ => none
  | e :: rest, p => if e.fst = p then some e.snd else lookupFS rest p

/-- Remove every entry for a path (models deletion of that path). -/
def removeFS : FS → String → FS
  | [], _ => []
  | e :: rest, p => if e.fst = p then removeFS rest p else e :: removeFS rest p

/-- Create or overwrite a file at a path. -/
def insertFS (fs : FS) (p : String) (b : Bytes) : FS :=
  (p, b) :: removeFS fs p

/-- Number of filesystem entries with the given path. -/
def countFS : FS → String → Nat
  | [], _ => 0
  | e :: rest, p => (if e.fst = p then 1 else 0) + countFS rest p

theorem lookupFS_insertFS_self (fs : FS) (p : String) (b : Bytes) :
    lookupFS (insertFS fs p b) p = some b := by
  simp [insertFS, lookupFS]

theorem lookupFS_removeFS_ne (fs : FS) (p q : String) (h : q ≠ p) :
    lookupFS (removeFS fs p) q = lookupFS fs q := by
  induction fs with
  | nil => rfl
  | cons e rest ih =>
    have hpq : ¬ p = q := fun hh => h hh.symm
    by_cases he : e.fst = p
    · simp [removeFS, lookupFS, he, hpq, ih]
    · by_cases heq : e.fst = q
      · have hqp : ¬ q = p := h
        simp [removeFS, lookupFS, he, heq, hqp]
      · simp [removeFS, lookupFS, he, heq, ih]

theorem lookupFS_insertFS_ne (fs : FS) (p q : String) (b : Bytes) (h : q ≠ p) :
    lookupFS (insertFS fs p b) q = lookupFS fs q := by
  have hp : p ≠ q := fun hh => h hh.symm
  simp [insertFS, lookupFS, hp, lookupFS_removeFS_ne fs p q h]

theorem countFS_removeFS_self (fs : FS) (p : String) :
    countFS (removeFS fs p) p = 0 := by
  induction fs with
  | nil => rfl
  | cons e rest ih =>
    by_cases he : e.fst = p
    · simp [removeFS, he, ih]
    · simp [removeFS, countFS, he, ih]

theorem countFS_removeFS_ne (fs : FS) (p q : String) (h : q ≠ p) :
    countFS (removeFS fs p) q = countFS fs q := by
  induction fs with
  | nil => rfl
  | cons e rest ih =>
    have hpq : ¬ p = q := fun hh => h hh.symm
    by_cases he : e.fst = p
    · simp [removeFS, countFS, he, hpq, ih]
    · simp [removeFS, countFS, he, ih]

theorem countFS_insertFS_self (fs : FS) (p : String) (b : Bytes) :
    countFS (insertFS fs p b) p = 1 := by
  simp [insertFS, countFS, countFS_removeFS_self]

theorem countFS_insertFS_ne (fs : FS) (p q : String) (b : Bytes) (h : q ≠ p) :
    countFS (insertFS fs p b) q = countFS fs q := by
  have hp : p ≠ q := fun hh => h hh.symm
  simp [insertFS, countFS, hp, countFS_removeFS_ne fs p q h]

/-! ## util.BackupAndReplace

Embedding of `BackupAndReplace(src, dest)` from the util package:
the destination is stat-ed; if it exists it is renamed to
`dest + "." + timestamp + ".ORIGINAL"`; then the source is hard-linked
(or, on link failure, copied) to the destination.  Both the hard link
and the copy leave the destination holding the source bytes, which is
the level of abstraction of this byte-content model.  The timestamp
(`time.Now().Format("20060102-150405")`) is passed in explicitly. -/

/-- The backup path `dest + "." + timestamp + ".ORIGINAL"`. -/
def backupName (dest ts : String) : String :=
  dest ++ "." ++ ts ++ ".ORIGINAL"

/-- Effects performed by `BackupAndReplace`, in order. -/
inductive REvent where
  /-- `os.Rename(dest, backupPath)` succeeded. -/
  | renameToBackup (backup : String)
  /-- the substitution (`os.Link`, or the `CopyFile` fallback) wrote
  the source bytes to the destination. -/
  | substitute
deriving DecidableEq, Repr

inductive RError where
  /-- both the hard link and the copy fallback failed
  (the source cannot be read). -/
  | copyFailed
deriving DecidableEq, Repr

/-- Shallow embedding of `util.BackupAndReplace`. -/
def BackupAndReplace (ts src dest : String) (fs : FS) :
    Except RError FS × List REvent :=
  match lookupFS fs dest with
  | some db =>
      let bp := backupName dest ts
      let fs1 := insertFS (removeFS fs dest) bp db
      match lookupFS fs1 src with
      | some sb => (.ok (insertFS fs1 dest sb), [.renameToBackup bp, .substitute])
      | none => (.error .copyFailed, [.renameToBackup bp])
  | none =>
      match lookupFS fs src with
      | some sb => (.ok (insertFS fs dest sb), [.substitute])
      | none => (.error .copyFailed, [])

theorem backupName_ne_dest (dest ts : String) : backupName dest ts ≠ dest := by
  intro h
  have h2 := congrArg String.length h
  have e1 : String.length "." = 1 := rfl
  have e2 : String.length ".ORIGINAL" = 9 := rfl
  simp [backupName, String.length_append, e1, e2] at h2
  omega

/-- C2: with a pre-existing destination and a readable source, a
successful `BackupAndReplace` first renames the destination to the
timestamped backup and only then substitutes; afterwards exactly one
file with the backup name exists, it holds the pre-call destination
bytes, and the destination holds the source bytes. -/
theorem C2_backup_then_replace
    (ts src dest : String) (fs : FS) (db sb : Bytes)
    (hdest : lookupFS fs dest = some db)
    (hsrc : lookupFS fs src = some sb)
    (hne : src ≠ dest)
    (hnb : src ≠ backupName dest ts) :
    ∃ fs2,
      BackupAndReplace ts src dest fs =
        (.ok fs2, [.renameToBackup (backupName dest ts), .substitute])
      ∧ lookupFS fs2 (backupName dest ts) = some db
      ∧ lookupFS fs2 dest = some sb
      ∧ countFS fs2 (backupName dest ts) = 1 := by
  have hbd := backupName_ne_dest dest ts
  have hsrc1 :
      lookupFS (insertFS (removeFS fs dest) (backupName dest ts) db) src = some sb := by
    rw [lookupFS_insertFS_ne _ _ _ _ hnb, lookupFS_removeFS_ne _ _ _ hne]
    exact hsrc
  refine ⟨insertFS (insertFS (removeFS fs dest) (backupName dest ts) db) dest sb, ?_, ?_, ?_, ?_⟩
  · simp only [BackupAndReplace, hdest, hsrc1]
  · rw [lookupFS_insertFS_ne _ _ _ _ hbd]
    exact lookupFS_insertFS_self _ _ _
  · exact lookupFS_insertFS_self _ _ _
  · rw [countFS_insertFS_ne _ _ _ _ hbd]
    exact countFS_insertFS_self _ _ _

/-- Witness for C2 at a concrete filesystem. -/
theorem C2_backup_then_replace_witness :
    ∃ fs2,
      BackupAndReplace "20240101-000000" "s" "d" [("d", [1]), ("s", [2])] =
        (.ok fs2, [.renameToBackup (backupName "d" "20240101-000000"), .substitute])
      ∧ lookupFS fs2 (backupName "d" "20240101-000000") = some [1]
      ∧ lookupFS fs2 "d" = some [2]
      ∧ countFS fs2 (backupName "d" "20240101-000000") = 1 :=
  C2_backup_then_replace "20240101-000000" "s" "d" [("d", [1]), ("s", [2])] [1] [2]
    (by decide) (by decide) (by decide) (by decide)

/-- C3: when the destination does not pre-exist and the source is
readable, `BackupAndReplace` succeeds, performs no backup (no rename
event, and no path other than the destination is touched), and creates
the destination with the source bytes. -/
theorem C3_no_backup_when_dest_missing
    (ts src dest : String) (fs : FS) (sb : Bytes)
    (hdest : lookupFS fs dest = none)
    (hsrc : lookupFS fs src = some sb) :
    BackupAndReplace ts src dest fs = (.ok (insertFS fs dest sb), [.substitute])
    ∧ lookupFS (insertFS fs dest sb) dest = some sb
    ∧ (∀ p, p ≠ dest → lookupFS (insertFS fs dest sb) p = lookupFS fs p) := by
  refine ⟨?_, lookupFS_insertFS_self _ _ _, ?_⟩
  · simp only [BackupAndReplace, hdest, hsrc]
  · intro p hp
    exact lookupFS_insertFS_ne _ _ _ _ hp

/-- Witness for C3 at a concrete filesystem. -/
theorem C3_no_backup_when_dest_missing_witness :
    BackupAndReplace "20240101-000000" "s" "d" [("s", [2])] =
      (.ok (insertFS [("s", [2])] "d" [2]), [.substitute])
    ∧ lookupFS (insertFS [("s", [2])] "d" [2]) "d" = some [2]
    ∧ (∀ p, p ≠ "d" →
        lookupFS (insertFS [("s", [2])] "d" [2]) p = lookupFS [("s", [2])] p) :=
  C3_no_backup_when_dest_missing "20240101-000000" "s" "d" [("s", [2])] [2]
    (by decide) (by decide)

/-! ## util.DownloadAndExtract

The destination directory is modelled as a `DirState`: a list of files
(path components relative to `destDir`, with contents) and a list of
directories (path components relative to `destDir`).  `http.Get`, the
bzip2/tar stream, temp-file creation, the body copy, and the external
`7z` invocation are environment outcomes supplied in `DLEnv`.  Entry
permission bits, which the Go code forwards to `os.MkdirAll` and
`os.OpenFile`, do not affect the tree shape and are not modelled. -/

/-- A path relative to the destination directory, as components. -/
abbrev DPath := List String

/-- State of the destination directory tree. -/
structure DirState where
  files : List (DPath × Bytes)
  dirs : List DPath
deriving DecidableEq, Repr

def emptyDirState : DirState := ⟨[], []⟩

/-- One entry of the tar stream: its (already path-joined) name,
whether the header describes a directory, and the file contents. -/
structure TarEntry where
  name : DPath
  isDir : Bool
  content : Bytes
deriving DecidableEq, Repr

/-- All nonempty prefixes of a path, shortest first
(what `os.MkdirAll` creates). -/
def dpathPrefixes (p : DPath) : List DPath :=
  (List.range p.length).map (fun i => p.take (i + 1))

/-- `os.MkdirAll(destDir/p)`: record the directory and all its parents. -/
def mkdirAllD (st : DirState) (p : DPath) : DirState :=
  { st with dirs := st.dirs ++ dpathPrefixes p }

/-- Whether a directory exists in the tree. -/
def dirExistsD (st : DirState) (p : DPath) : Bool :=
  st.dirs.contains p

/-- Create or truncate a file (`os.OpenFile` with `O_CREATE|O_WRONLY|O_TRUNC`
followed by `io.Copy`). -/
def writeFileD (st : DirState) (p : DPath) (b : Bytes) : DirState :=
  { st with files := (p, b) :: st.files.filter (fun e => !(e.fst == p)) }

inductive DLError where
  | httpError
  | removeAllError
  | mkdirError
  | tarStreamError
  /-- opening `filepath.Join(destDir, header.Name)` failed
  (e.g. the parent directory does not exist). -/
  | openError
  | createTempError
  | copyTempError
  | sevenZError
  /-- an OS error in the `release`-hoist block after a successful
  archiver run. -/
  | releaseHoistError
  | unsupportedFormat (format : String)
deriving DecidableEq, Repr

/-- The tar extraction loop: process entries in stream order.
A directory header runs `os.MkdirAll`; a file header is written if its
parent directory exists (the root of `destDir` always exists). -/
def extractEntries : List TarEntry → DirState → Except DLError DirState
  | [], st => .ok st
  | e :: rest, st =>
    if e.isDir then extractEntries rest (mkdirAllD st e.name)
    else if e.name.dropLast = [] || dirExistsD st e.name.dropLast then
      extractEntries rest (writeFileD st e.name e.content)
    else .error .openError

/-- Drop a leading component `d` from a path (the effect, on one path,
of renaming the subtree rooted at `d` one level up). -/
def stripTop (d : String) : DPath → DPath
  | [] => []
  | x :: rest => if x = d then rest else x :: rest

/-- Move every entry of directory `d` one level up and remove `d`
itself (the rename loop over `os.ReadDir(destDir/d)`). -/
def hoistDir (st : DirState) (d : String) : DirState :=
  { files := st.files.map (fun e => (stripTop d e.fst, e.snd)),
    dirs := (st.dirs.filter (fun p => !(p == [d]))).map (stripTop d) }

/-- `os.ReadDir(destDir)` reports exactly one entry and it is a
directory: all raw top-level entries agree on one directory name.
Returns that name. -/
def singleTopDir? (st : DirState) : Option String :=
  let raw : List (String × Bool) :=
    (st.dirs.filterMap (fun p =>
      match p with
      | [x] => some (x, true)
      | _ => none))
    ++ (st.files.filterMap (fun e =>
      match e.fst with
      | [x] => some (x, false)
      | _ => none))
  match raw with
  | [] => none
  | e :: rest => if e.snd && rest.all (fun x => x == e) then some e.fst else none

/-- The tar.bz2 post-step: if the destination holds exactly one entry
and it is a directory, hoist its contents one level up. -/
def tarNormalize (st : DirState) : DirState :=
  match singleTopDir? st with
  | some d => hoistDir st d
  | none => st

/-- Environment outcomes for one `DownloadAndExtract` run. -/
structure DLEnv where
  /-- `http.Get(url)` succeeded. -/
  httpOk : Bool
  /-- the bzip2/tar stream was well formed to the end. -/
  tarStreamOk : Bool
  /-- the decoded tar entries, in stream order. -/
  tarEntries : List TarEntry
  /-- `os.Create` of the temporary `temp.7z` file succeeded. -/
  createTempOk : Bool
  /-- `io.Copy` of the response body into the temporary file succeeded. -/
  copyBodyOk : Bool
  /-- the external `7z x` invocation exited successfully. -/
  sevenZOk : Bool
  /-- the tree the external `7z` utility produced under `destDir`. -/
  sevenZOutput : DirState
  /-- the `release`-directory hoist after a successful archiver run
  (the `os.ReadDir` / per-entry `os.Rename` / `os.Remove(releasePath)`
  sequence) completed without an OS error.  Only consulted when a
  `release` directory exists in the archiver's output. -/
  hoistOk : Bool
  /-- `os.RemoveAll(destDir)` succeeded. -/
  removeAllOk : Bool
  /-- `os.MkdirAll(destDir)` succeeded. -/
  mkdirOk : Bool
deriving Repr

/-- Externally visible effects of `DownloadAndExtract`, in order. -/
inductive DLEvent where
  | httpGet
  /-- `os.RemoveAll(destDir)`: all existing contents deleted. -/
  | removeAllDest
  /-- `os.MkdirAll(destDir)`: destination recreated empty. -/
  | mkdirDest
  /-- the temporary `temp.7z` file was created. -/
  | createTemp
  /-- the external `7z` utility was invoked. -/
  | run7z
  /-- `os.Remove` of the temporary file. -/
  | removeTemp
deriving DecidableEq, Repr

/-- Shallow embedding of `util.DownloadAndExtract(url, destDir, format)`.
Returns the resulting destination tree (or the error) and the effect
trace. -/
def DownloadAndExtract (env : DLEnv) (format : String) :
    Except DLError DirState × List DLEvent :=
  if env.httpOk = false then (.error .httpError, []) else
  if env.removeAllOk = false then (.error .removeAllError, [.httpGet]) else
  if env.mkdirOk = false then (.error .mkdirError, [.httpGet, .removeAllDest]) else
  if format = "tar.bz2" then
    if env.tarStreamOk = false then
      (.error .tarStreamError, [.httpGet, .removeAllDest, .mkdirDest])
    else
      match extractEntries env.tarEntries emptyDirState with
      | .error e => (.error e, [.httpGet, .removeAllDest, .mkdirDest])
      | .ok st => (.ok (tarNormalize st), [.httpGet, .removeAllDest, .mkdirDest])
  else if format = "7z" then
    if env.createTempOk = false then
      (.error .createTempError, [.httpGet, .removeAllDest, .mkdirDest])
    else if env.copyBodyOk = false then
      (.error .copyTempError, [.httpGet, .removeAllDest, .mkdirDest, .createTemp])
    else if env.sevenZOk = false then
      (.error .sevenZError,
        [.httpGet, .removeAllDest, .mkdirDest, .createTemp, .run7z, .removeTemp])
    else if dirExistsD env.sevenZOutput ["release"] = false then
      (.ok env.sevenZOutput,
        [.httpGet, .removeAllDest, .mkdirDest, .createTemp, .run7z, .removeTemp])
    else if env.hoistOk = false then
      (.error .releaseHoistError,
        [.httpGet, .removeAllDest, .mkdirDest, .createTemp, .run7z])
    else
      (.ok (hoistDir env.sevenZOutput "release"),
        [.httpGet, .removeAllDest, .mkdirDest, .createTemp, .run7z, .removeTemp])
  else
    (.error (.unsupportedFormat format), [.httpGet, .removeAllDest, .mkdirDest])

/-- C9: for any format other than the two supported kinds, provided the
download and the destination wipe themselves succeed, the function
returns the unsupported-format error, but only after `os.RemoveAll`
has deleted the destination directory and `os.MkdirAll` has recreated
it empty — visible in the effect trace preceding the error. -/
theorem C9_unsupported_format_after_wipe (env : DLEnv) (format : String)
    (h1 : env.httpOk = true) (h2 : env.removeAllOk = true) (h3 : env.mkdirOk = true)
    (h4 : format ≠ "tar.bz2") (h5 : format ≠ "7z") :
    DownloadAndExtract env format =
      (.error (.unsupportedFormat format), [.httpGet, .removeAllDest, .mkdirDest]) := by
  simp [DownloadAndExtract, h1, h2, h3, h4, h5]

/-- Witness for C9 at a concrete environment and format. -/
theorem C9_unsupported_format_after_wipe_witness :
    DownloadAndExtract
      ⟨true, true, [], true, true, true, emptyDirState, true, true, true⟩ "zip" =
      (.error (.unsupportedFormat "zip"), [.httpGet, .removeAllDest, .mkdirDest]) :=
  C9_unsupported_format_after_wipe
    ⟨true, true, [], true, true, true, emptyDirState, true, true, true⟩ "zip"
    rfl rfl rfl (by decide) (by decide)

/-- Concrete run refuting C7: a 7z invocation in which buffering the
response body to the temporary file fails.  The temporary file has been
created, the operation returns an error, and no removal of the
temporary file ever happens. -/
def c7env : DLEnv :=
  { httpOk := true, tarStreamOk := true, tarEntries := [],
    createTempOk := true, copyBodyOk := false, sevenZOk := true,
    sevenZOutput := emptyDirState, hoistOk := true,
    removeAllOk := true, mkdirOk := true }

/-- Counterexample to C7: the temporary file is not removed on every
failure after its creation — a body-copy failure returns with the
temporary file still present. -/
theorem C7_counterexample :
    (DownloadAndExtract c7env "7z").1 = .error .copyTempError
    ∧ DLEvent.createTemp ∈ (DownloadAndExtract c7env "7z").2
    ∧ DLEvent.removeTemp ∉ (DownloadAndExtract c7env "7z").2 :=
  ⟨rfl, by decide, by decide⟩

/-- C7 (amended): the temporary file is removed when the external
archiver fails and after a fully successful run (with or without a
`release` hoist); but two failure paths after its creation skip the
removal and return with the temporary file still present — a failure
while buffering the response body into it, and an OS failure in the
`release`-hoist block after a successful archiver run. -/
theorem C7_temp_removal_paths (env : DLEnv)
    (h1 : env.httpOk = true) (h2 : env.removeAllOk = true) (h3 : env.mkdirOk = true)
    (h4 : env.createTempOk = true) :
    (env.copyBodyOk = true → env.sevenZOk = false →
        (DownloadAndExtract env "7z").1 = .error .sevenZError
        ∧ DLEvent.removeTemp ∈ (DownloadAndExtract env "7z").2)
    ∧ (env.copyBodyOk = true → env.sevenZOk = true →
        (dirExistsD env.sevenZOutput ["release"] = false ∨ env.hoistOk = true) →
        (∃ st, (DownloadAndExtract env "7z").1 = .ok st)
        ∧ DLEvent.removeTemp ∈ (DownloadAndExtract env "7z").2)
    ∧ (env.copyBodyOk = false →
        (DownloadAndExtract env "7z").1 = .error .copyTempError
        ∧ DLEvent.createTemp ∈ (DownloadAndExtract env "7z").2
        ∧ DLEvent.removeTemp ∉ (DownloadAndExtract env "7z").2)
    ∧ (env.copyBodyOk = true → env.sevenZOk = true →
        dirExistsD env.sevenZOutput ["release"] = true → env.hoistOk = false →
        (DownloadAndExtract env "7z").1 = .error .releaseHoistError
        ∧ DLEvent.createTemp ∈ (DownloadAndExtract env "7z").2
        ∧ DLEvent.removeTemp ∉ (DownloadAndExtract env "7z").2) := by
  refine ⟨?_, ?_, ?_, ?_⟩
  · intro hc hz
    simp [DownloadAndExtract, h1, h2, h3, h4, hc, hz]
  · intro hc hz hrel
    rcases hrel with hrel | hrel
    · simp [DownloadAndExtract, h1, h2, h3, h4, hc, hz, hrel]
    · cases hex : dirExistsD env.sevenZOutput ["release"] <;>
        simp [DownloadAndExtract, h1, h2, h3, h4, hc, hz, hrel, hex]
  · intro hc
    simp [DownloadAndExtract, h1, h2, h3, h4, hc]
  · intro hc hz hex hh
    simp [DownloadAndExtract, h1, h2, h3, h4, hc, hz, hex, hh]

/-- Concrete run exhibiting the second leak path of the amended C7: the
archiver succeeds, a `release` directory exists in its output, and the
hoist fails — the temporary file is not removed. -/
def c7hoistEnv : DLEnv :=
  { httpOk := true, tarStreamOk := true, tarEntries := [],
    createTempOk := true, copyBodyOk := true, sevenZOk := true,
    sevenZOutput := ⟨[(["release", "bin.exe"], [1])], [["release"]]⟩,
    hoistOk := false, removeAllOk := true, mkdirOk := true }

/-- Witness for the amended C7 at concrete environments: the removal
happens on a fully successful hoist-free run, and is skipped on a
hoist failure. -/
theorem C7_temp_removal_paths_witness :
    ((∃ st,
        (DownloadAndExtract
          ⟨true, true, [], true, true, true, emptyDirState, true, true, true⟩
          "7z").1 = .ok st)
      ∧ DLEvent.removeTemp ∈
          (DownloadAndExtract
            ⟨true, true, [], true, true, true, emptyDirState, true, true, true⟩
            "7z").2)
    ∧ ((DownloadAndExtract c7hoistEnv "7z").1 = .error .releaseHoistError
        ∧ DLEvent.createTemp ∈ (DownloadAndExtract c7hoistEnv "7z").2
        ∧ DLEvent.removeTemp ∉ (DownloadAndExtract c7hoistEnv "7z").2) :=
  ⟨(C7_temp_removal_paths
      ⟨true, true, [], true, true, true, emptyDirState, true, true, true⟩
      rfl rfl rfl rfl).2.1 rfl rfl (Or.inl rfl),
    (C7_temp_removal_paths c7hoistEnv rfl rfl rfl rfl).2.2.2 rfl rfl rfl rfl⟩

/-- C4: when the extracted tar tree has exactly one top-level entry and
it is a directory `d`, the overall result hoists: the final tree holds
exactly the files that were under `d`, with the `d` component stripped,
and its directories are exactly the proper subdirectories of `d`, also
stripped — in particular the wrapper is gone as a top-level entry. -/
theorem C4_tar_hoists_single_wrapper (env : DLEnv) (st : DirState) (d : String)
    (h1 : env.httpOk = true) (h2 : env.removeAllOk = true) (h3 : env.mkdirOk = true)
    (h4 : env.tarStreamOk = true)
    (hex : extractEntries env.tarEntries emptyDirState = .ok st)
    (htop : singleTopDir? st = some d)
    (hf : ∀ e ∈ st.files, ∃ rest, e.fst = d :: rest)
    (hd : ∀ q ∈ st.dirs, q = [d] ∨ ∃ rest, rest ≠ [] ∧ q = d :: rest) :
    (DownloadAndExtract env "tar.bz2").1 = .ok (hoistDir st d)
    ∧ (∀ rest b, ((rest, b) ∈ (hoistDir st d).files ↔ (d :: rest, b) ∈ st.files))
    ∧ (∀ q, q ∈ (hoistDir st d).dirs ↔ (q ≠ [] ∧ d :: q ∈ st.dirs)) := by
  refine ⟨?_, ?_, ?_⟩
  · simp [DownloadAndExtract, h1, h2, h3, h4, hex, tarNormalize, htop]
  · intro rest b
    constructor
    · intro hm
      rcases List.mem_map.mp hm with ⟨e, he, heq⟩
      rcases hf e he with ⟨r0, hr0⟩
      rw [hr0] at heq
      simp [stripTop] at heq
      rcases heq with ⟨hrest, hb⟩
      rw [← hrest, ← hb, ← hr0]
      exact he
    · intro hm
      have : ((stripTop d (d :: rest)), b) ∈ (hoistDir st d).files :=
        List.mem_map.mpr ⟨(d :: rest, b), hm, rfl⟩
      simpa [stripTop] using this
  · intro q
    constructor
    · intro hm
      rcases List.mem_map.mp hm with ⟨p, hp, hpq⟩
      have hpd := List.mem_filter.mp hp
      rcases hd p hpd.1 with hpk | ⟨rest, hrne, hrp⟩
      · exfalso
        have := hpd.2
        rw [hpk] at this
        simp at this
      · rw [hrp] at hpq
        simp [stripTop] at hpq
        subst hpq
        exact ⟨hrne, by rw [← hrp]; exact hpd.1⟩
    · rintro ⟨hq, hm⟩
      have hne : ¬ (d :: q) = [d] := by
        intro hcon
        apply hq
        have := congrArg List.tail hcon
        simpa using this
      apply List.mem_map.mpr
      refine ⟨d :: q, List.mem_filter.mpr ⟨hm, ?_⟩, ?_⟩
      · simp [hq]
      · simp [stripTop]

/-- The C4 example archive: a single top-level directory `pkg`
containing one file `a.txt`. -/
def c4env : DLEnv :=
  { httpOk := true, tarStreamOk := true,
    tarEntries := [⟨["pkg"], true, []⟩, ⟨["pkg", "a.txt"], false, [97]⟩],
    createTempOk := true, copyBodyOk := true, sevenZOk := true,
    sevenZOutput := emptyDirState, hoistOk := true,
    removeAllOk := true, mkdirOk := true }

/-- The tree the tar loop produces for `c4env` before normalization. -/
def c4st : DirState := ⟨[(["pkg", "a.txt"], [97])], [["pkg"]]⟩

/-- Witness for C4: extracting the `pkg/a.txt` archive yields `a.txt`
directly under the destination, not `pkg/a.txt`. -/
theorem C4_tar_hoists_single_wrapper_witness :
    (DownloadAndExtract c4env "tar.bz2").1 = .ok (hoistDir c4st "pkg")
    ∧ ((["a.txt"], [97]) ∈ (hoistDir c4st "pkg").files
        ↔ (["pkg", "a.txt"], [97]) ∈ c4st.files) := by
  have h := C4_tar_hoists_single_wrapper c4env c4st "pkg" rfl rfl rfl rfl
    rfl rfl
    (by
      intro e he
      simp only [c4st, List.mem_singleton] at he
      subst he
      exact ⟨["a.txt"], rfl⟩)
    (by
      intro q hq
      simp only [c4st, List.mem_singleton] at hq
      exact Or.inl hq)
  exact ⟨h.1, h.2.1 ["a.txt"] [97]⟩

/-! ## github.UpdateGBE

The release's `updated_at` field is decoded by `encoding/json` into a
Go `time.Time`; the marker comparison and the marker write both use
`release.UpdatedAt.String()`, Go's `time.Time.String()` rendering
(`"2006-01-02 15:04:05.999999999 -0700 MST"`).  The feed timestamps are
UTC (`Z`-suffixed RFC 3339), so the decoded value is modelled as a UTC
calendar time and `String()` as `goTimeString` below (fractional
seconds are zero in the feed and are omitted by Go's formatter). -/

/-- A decoded UTC `time.Time` (whole seconds). -/
structure GoTime where
  year : Nat
  month : Nat
  day : Nat
  hour : Nat
  minute : Nat
  second : Nat
deriving DecidableEq, Repr

/-- Decimal rendering zero-padded to two digits. -/
def pad2 (n : Nat) : String :=
  if n < 10 then "0" ++ toString n else toString n

/-- Decimal rendering zero-padded to four digits. -/
def pad4 (n : Nat) : String :=
  if n < 10 then "000" ++ toString n
  else if n < 100 then "00" ++ toString n
  else if n < 1000 then "0" ++ toString n
  else toString n

/-- Go's `time.Time.String()` for a UTC time with zero fractional
seconds, e.g. `2024-01-01 00:00:00 +0000 UTC`. -/
def goTimeString (t : GoTime) : String :=
  pad4 t.year ++ "-" ++ pad2 t.month ++ "-" ++ pad2 t.day ++ " "
    ++ pad2 t.hour ++ ":" ++ pad2 t.minute ++ ":" ++ pad2 t.second
    ++ " +0000 UTC"

/-- The RFC 3339 text of the same instant as it appears in the JSON
feed, e.g. `2024-01-01T00:00:00Z`. -/
def rfc3339String (t : GoTime) : String :=
  pad4 t.year ++ "-" ++ pad2 t.month ++ "-" ++ pad2 t.day ++ "T"
    ++ pad2 t.hour ++ ":" ++ pad2 t.minute ++ ":" ++ pad2 t.second ++ "Z"

/-- Go's `strings.HasSuffix`, over the character sequences. -/
def hasSuffix (s suffix : String) : Bool :=
  suffix.data.isSuffixOf s.data

/-- The first asset whose name ends in the suffix gives the download
URL; with no match the URL stays the empty string (the Go loop's
zero-value initialisation). -/
def findAssetURL : List (String × String) → String → String
  | [], _ => ""
  | a :: rest, suffix =>
    if hasSuffix a.fst suffix then a.snd else findAssetURL rest suffix

inductive UpdateError where
  | fetchFailed
  | decodeFailed
  | mkdirFailed
  | linuxURLNotFound
  | linuxExtractFailed
  | winURLNotFound
  | winExtractFailed
  | markerWriteFailed
deriving DecidableEq, Repr

/-- Environment outcomes for one `UpdateGBE` run. -/
structure UpdateEnv where
  /-- `http.Get` of the release endpoint succeeded. -/
  httpOk : Bool
  /-- the JSON body decoded into a `Release`. -/
  decodeOk : Bool
  /-- the release assets: (name, browser download URL). -/
  assets : List (String × String)
  /-- the decoded `updated_at` instant. -/
  updatedAt : GoTime
  /-- content of the `.gbe_timestamp` marker, `none` when the file is
  absent or unreadable. -/
  markerContent : Option String
  /-- the glamour markdown rendering of the release notes succeeded. -/
  renderOk : Bool
  /-- `os.MkdirAll` of the cache root succeeded. -/
  mkdirHomeOk : Bool
  /-- the Linux `DownloadAndExtract` call succeeded. -/
  linuxExtractOk : Bool
  /-- the Windows `DownloadAndExtract` call succeeded. -/
  winExtractOk : Bool
  /-- `os.WriteFile` of the marker succeeded. -/
  markerWriteOk : Bool
deriving Repr

/-- Externally visible effects of `UpdateGBE`, in order. -/
inductive UEvent where
  /-- the render error was printed (nothing else happened). -/
  | renderFailedNote
  /-- the rendered release notes were printed. -/
  | printedNotes
  /-- `DownloadAndExtract` of the Linux archive was invoked. -/
  | extractLinux (url : String) (ok : Bool)
  /-- `DownloadAndExtract` of the Windows archive was invoked. -/
  | extractWin (url : String) (ok : Bool)
  /-- the `.gbe_timestamp` marker was written. -/
  | writeMarker
deriving DecidableEq, Repr

/-- URL of the first asset named `...linux-release.tar.bz2`. -/
def linuxURL (env : UpdateEnv) : String :=
  findAssetURL env.assets "linux-release.tar.bz2"

/-- URL of the first asset named `...win-release.7z`. -/
def winURL (env : UpdateEnv) : String :=
  findAssetURL env.assets "win-release.7z"

/-- Shallow embedding of `github.UpdateGBE`. -/
def UpdateGBE (env : UpdateEnv) : Except UpdateError Unit × List UEvent :=
  if env.httpOk = false then (.error .fetchFailed, []) else
  if env.decodeOk = false then (.error .decodeFailed, []) else
  if env.markerContent = some (goTimeString env.updatedAt) then (.ok (), []) else
  if env.renderOk = false then (.ok (), [.renderFailedNote]) else
  if env.mkdirHomeOk = false then (.error .mkdirFailed, [.printedNotes]) else
  if linuxURL env = "" then (.error .linuxURLNotFound, [.printedNotes]) else
  if env.linuxExtractOk = false then
    (.error .linuxExtractFailed, [.printedNotes, .extractLinux (linuxURL env) false]) else
  if winURL env = "" then
    (.error .winURLNotFound, [.printedNotes, .extractLinux (linuxURL env) true]) else
  if env.winExtractOk = false then
    (.error .winExtractFailed,
      [.printedNotes, .extractLinux (linuxURL env) true, .extractWin (winURL env) false]) else
  if env.markerWriteOk = false then
    (.error .markerWriteFailed,
      [.printedNotes, .extractLinux (linuxURL env) true, .extractWin (winURL env) true]) else
  (.ok (),
    [.printedNotes, .extractLinux (linuxURL env) true, .extractWin (winURL env) true,
      .writeMarker])

/-- C1: the marker write, when it happens, is the last effect and is
preceded by successful extractions of both the Linux and the Windows
archives; any erroring run writes no marker; and on a run that reaches
the download stage, a missing download URL or a failing extraction (for
either platform) makes the whole operation an error with no marker
written. -/
theorem C1_marker_only_after_both_extractions (env : UpdateEnv) :
    (UEvent.writeMarker ∈ (UpdateGBE env).2 →
      ∃ pre, (UpdateGBE env).2 = pre ++ [UEvent.writeMarker]
        ∧ UEvent.extractLinux (linuxURL env) true ∈ pre
        ∧ UEvent.extractWin (winURL env) true ∈ pre)
    ∧ (∀ e, (UpdateGBE env).1 = .error e → UEvent.writeMarker ∉ (UpdateGBE env).2)
    ∧ (env.httpOk = true → env.decodeOk = true →
        env.markerContent ≠ some (goTimeString env.updatedAt) →
        env.renderOk = true → env.mkdirHomeOk = true →
        (linuxURL env = "" ∨ env.linuxExtractOk = false ∨
          winURL env = "" ∨ env.winExtractOk = false) →
        (∃ e, (UpdateGBE env).1 = .error e)
          ∧ UEvent.writeMarker ∉ (UpdateGBE env).2) := by
  by_cases h1 : env.httpOk = false
  · simp [UpdateGBE, h1]
  by_cases h2 : env.decodeOk = false
  · simp [UpdateGBE, h1, h2]
  by_cases h3 : env.markerContent = some (goTimeString env.updatedAt)
  · simp [UpdateGBE, h1, h2, h3]
  by_cases h4 : env.renderOk = false
  · simp [UpdateGBE, h1, h2, h3, h4]
  by_cases h5 : env.mkdirHomeOk = false
  · simp [UpdateGBE, h1, h2, h3, h4, h5]
  by_cases h6 : linuxURL env = ""
  · simp [UpdateGBE, h1, h2, h3, h4, h5, h6]
  by_cases h7 : env.linuxExtractOk = false
  · simp [UpdateGBE, h1, h2, h3, h4, h5, h6, h7]
  by_cases h8 : winURL env = ""
  · simp [UpdateGBE, h1, h2, h3, h4, h5, h6, h7, h8]
  by_cases h9 : env.winExtractOk = false
  · simp [UpdateGBE, h1, h2, h3, h4, h5, h6, h7, h8, h9]
  by_cases h10 : env.markerWriteOk = false
  · simp [UpdateGBE, h1, h2, h3, h4, h5, h6, h7, h8, h9, h10]
  · refine ⟨?_, ?_, ?_⟩
    · intro _
      refine ⟨[.printedNotes, .extractLinux (linuxURL env) true,
        .extractWin (winURL env) true], ?_, by simp, by simp⟩
      simp [UpdateGBE, h1, h2, h3, h4, h5, h6, h7, h8, h9, h10]
    · intro e he
      simp [UpdateGBE, h1, h2, h3, h4, h5, h6, h7, h8, h9, h10] at he
    · intro _ _ _ _ _ hdis
      rcases hdis with hc | hc | hc | hc <;> simp_all

/-- Witness for C1: on a fully successful run the trace ends with the
marker write, preceded by both successful extractions. -/
theorem C1_marker_only_after_both_extractions_witness :
    ∃ pre,
      (UpdateGBE
        { httpOk := true, decodeOk := true,
          assets := [("emu-linux-release.tar.bz2", "lu"), ("emu-win-release.7z", "wu")],
          updatedAt := ⟨2024, 1, 1, 0, 0, 0⟩, markerContent := none,
          renderOk := true, mkdirHomeOk := true, linuxExtractOk := true,
          winExtractOk := true, markerWriteOk := true }).2 = pre ++ [UEvent.writeMarker]
      ∧ UEvent.extractLinux
          (linuxURL
            { httpOk := true, decodeOk := true,
              assets := [("emu-linux-release.tar.bz2", "lu"), ("emu-win-release.7z", "wu")],
              updatedAt := ⟨2024, 1, 1, 0, 0, 0⟩, markerContent := none,
              renderOk := true, mkdirHomeOk := true, linuxExtractOk := true,
              winExtractOk := true, markerWriteOk := true }) true ∈ pre
      ∧ UEvent.extractWin
          (winURL
            { httpOk := true, decodeOk := true,
              assets := [("emu-linux-release.tar.bz2", "lu"), ("emu-win-release.7z", "wu")],
              updatedAt := ⟨2024, 1, 1, 0, 0, 0⟩, markerContent := none,
              renderOk := true, mkdirHomeOk := true, linuxExtractOk := true,
              winExtractOk := true, markerWriteOk := true }) true ∈ pre :=
  (C1_marker_only_after_both_extractions
    { httpOk := true, decodeOk := true,
      assets := [("emu-linux-release.tar.bz2", "lu"), ("emu-win-release.7z", "wu")],
      updatedAt := ⟨2024, 1, 1, 0, 0, 0⟩, markerContent := none,
      renderOk := true, mkdirHomeOk := true, linuxExtractOk := true,
      winExtractOk := true, markerWriteOk := true }).1 (by decide)

/-- The C5 scenario: the feed's `updated_at` is
`2024-01-01T00:00:00Z` and the marker file contains exactly that
string.  All other run conditions are favourable. -/
def c5env : UpdateEnv :=
  { httpOk := true, decodeOk := true,
    assets := [("emu-linux-release.tar.bz2", "lu"), ("emu-win-release.7z", "wu")],
    updatedAt := ⟨2024, 1, 1, 0, 0, 0⟩,
    markerContent := some "2024-01-01T00:00:00Z",
    renderOk := true, mkdirHomeOk := true, linuxExtractOk := true,
    winExtractOk := true, markerWriteOk := true }

/-- Counterexample to C5: with the marker containing the feed's exact
RFC 3339 text, the comparison against `UpdatedAt.String()` (which
renders `2024-01-01 00:00:00 +0000 UTC`) fails, so the run is treated
as stale and both archive downloads are performed — not zero. -/
theorem C5_counterexample :
    c5env.markerContent = some (rfc3339String c5env.updatedAt)
    ∧ rfc3339String c5env.updatedAt ≠ goTimeString c5env.updatedAt
    ∧ UEvent.extractLinux "lu" true ∈ (UpdateGBE c5env).2
    ∧ UEvent.extractWin "wu" true ∈ (UpdateGBE c5env).2 := by
  decide

/-- C5 (amended): the no-op short circuit compares the marker against
Go's `time.Time.String()` rendering of the decoded timestamp
(`2024-01-01 00:00:00 +0000 UTC`), not against the feed's RFC 3339
text; when the marker holds that rendered form the operation performs
zero downloads and returns success. -/
theorem C5_fresh_marker_skips_downloads (env : UpdateEnv)
    (h1 : env.httpOk = true) (h2 : env.decodeOk = true)
    (h3 : env.markerContent = some (goTimeString env.updatedAt)) :
    UpdateGBE env = (.ok (), []) := by
  simp [UpdateGBE, h1, h2, h3]

/-- Witness for the amended C5 with the concrete 2024-01-01 instant. -/
theorem C5_fresh_marker_skips_downloads_witness :
    UpdateGBE
      { httpOk := true, decodeOk := true,
        assets := [("emu-linux-release.tar.bz2", "lu"), ("emu-win-release.7z", "wu")],
        updatedAt := ⟨2024, 1, 1, 0, 0, 0⟩,
        markerContent := some "2024-01-01 00:00:00 +0000 UTC",
        renderOk := true, mkdirHomeOk := true, linuxExtractOk := true,
        winExtractOk := true, markerWriteOk := true } = (.ok (), []) :=
  C5_fresh_marker_skips_downloads
    { httpOk := true, decodeOk := true,
      assets := [("emu-linux-release.tar.bz2", "lu"), ("emu-win-release.7z", "wu")],
      updatedAt := ⟨2024, 1, 1, 0, 0, 0⟩,
      markerContent := some "2024-01-01 00:00:00 +0000 UTC",
      renderOk := true, mkdirHomeOk := true, linuxExtractOk := true,
      winExtractOk := true, markerWriteOk := true }
    rfl rfl (by decide)

/-- The C6 failing input: a stale cache (no marker) with everything
else in order, except that the glamour markdown rendering of the
release notes fails. -/
def c6env : UpdateEnv :=
  { httpOk := true, decodeOk := true,
    assets := [("emu-linux-release.tar.bz2", "lu"), ("emu-win-release.7z", "wu")],
    updatedAt := ⟨2024, 1, 1, 0, 0, 0⟩, markerContent := none,
    renderOk := false, mkdirHomeOk := true, linuxExtractOk := true,
    winExtractOk := true, markerWriteOk := true }

/-- C6 as the code behaves: on a stale run whose release-notes
rendering fails, `UpdateGBE` prints the rendering error and returns
`nil` immediately — reporting success while performing no download, no
extraction, and no marker write.  This contradicts the documented
best-effort intent (a rendering failure should not abort the update),
so the claim is classified as a code bug rather than amended. -/
theorem C6_render_failure_aborts_update :
    UpdateGBE c6env = (.ok (), [UEvent.renderFailedNote]) := by
  simp [UpdateGBE, c6env, goTimeString, pad2, pad4]

/-! ## gbe.ApplyGBE

Embedding of the patch orchestration.  The platform table is the
static `config.PlatformConfig` map; filesystem and process outcomes
are environment parameters, and a trace records the mutating steps. -/

structure PlatformProfile where
  subdir : String
  target : String
  additional : String
  generator : String
  arch : String
deriving DecidableEq, Repr

/-- `config.PlatformConfig` from the source, as an association list. -/
def platformConfig : List (String × PlatformProfile) :=
  [("linux",
     ⟨"linux_release", "libsteam_api.so", "steamclient.so",
       "generate_interfaces_x64", "64"⟩),
   ("win64",
     ⟨"win_release", "steam_api64.dll", "steamclient64.dll",
       "generate_interfaces_x64.exe", "64"⟩),
   ("win32",
     ⟨"win_release", "steam_api.dll", "steamclient.dll",
       "generate_interfaces_x32.exe", "32"⟩)]

/-- `config.GbeDir`. -/
def gbeDirConst : String := ".local/share/gbe_fork"

/-- Map lookup by exact key. -/
def lookupPlatform : List (String × PlatformProfile) → String → Option PlatformProfile
  | [], _ => none
  | e :: rest, p => if e.fst = p then some e.snd else lookupPlatform rest p

inductive ApplyError where
  /-- unknown platform; carries the given name and the valid keys the
  error message enumerates. -/
  | invalidPlatform (given : String) (valid : List String)
  | homeDirFailed
  | walkFailed
  | sourceNotFound (path : String)
  | sourceHashFailed
deriving DecidableEq, Repr

/-- Effects of `ApplyGBE`, in order. -/
inductive AEvent where
  /-- the recursive `filepath.WalkDir` traversal ran. -/
  | walkTree
  /-- `GetHash` of a candidate file. -/
  | hashFile (path : String)
  /-- `BackupAndReplace` was invoked onto this destination. -/
  | backupReplace (dest : String)
  /-- the generator tool was invoked. -/
  | runGenerator (name : String)
deriving DecidableEq, Repr

/-- Environment outcomes for one `ApplyGBE` run. -/
structure ApplyEnv where
  /-- `os.UserHomeDir` succeeded. -/
  homeOk : Bool
  /-- the home directory. -/
  home : String
  /-- the `WalkDir` traversal succeeded. -/
  walkOk : Bool
  /-- directories under the search root containing a file whose name
  equals the profile's target filename (the walk's matches). -/
  targetDirs : List String
  /-- `os.Stat` of the cached source file succeeded. -/
  sourceExists : Bool
  /-- `GetHash` outcome per path (`none` = error). -/
  hashOf : String → Option String
  /-- `BackupAndReplace` outcome per destination path. -/
  replaceOk : String → Bool
  /-- `os.Stat` of the cached companion binary succeeded. -/
  additionalSourceExists : Bool
  /-- `os.Stat` of the generator tool succeeded. -/
  generatorExists : Bool

/-- The cached patched source
`home/.local/share/gbe_fork/<subdir>/experimental/x<arch>/<target>`. -/
def sourcePath (env : ApplyEnv) (cfg : PlatformProfile) : String :=
  env.home ++ "/" ++ gbeDirConst ++ "/" ++ cfg.subdir ++ "/experimental/x"
    ++ cfg.arch ++ "/" ++ cfg.target

/-- Per-candidate processing: hash, skip when already identical,
otherwise replace, then best-effort companion replacement and
generator invocation. -/
def processTarget (env : ApplyEnv) (cfg : PlatformProfile) (srcHash : String)
    (dir : String) : List AEvent :=
  let file := dir ++ "/" ++ cfg.target
  match env.hashOf file with
  | none => [.hashFile file]
  | some h =>
    if h = srcHash then [.hashFile file]
    else
      [.hashFile file, .backupReplace file]
        ++ (if env.replaceOk file = false then []
            else
              (if cfg.additional ≠ "" ∧ env.additionalSourceExists = true then
                [.backupReplace (dir ++ "/" ++ cfg.additional)]
              else [])
              ++ (if env.generatorExists = true then
                    [.runGenerator cfg.generator]
                  else []))

/-- Shallow embedding of `gbe.ApplyGBE(platform)`. -/
def ApplyGBE (env : ApplyEnv) (platform : String) :
    Except ApplyError Unit × List AEvent :=
  match lookupPlatform platformConfig platform with
  | none =>
      (.error (.invalidPlatform platform (platformConfig.map Prod.fst)), [])
  | some cfg =>
    if env.homeOk = false then (.error .homeDirFailed, []) else
    if env.walkOk = false then (.error .walkFailed, [.walkTree]) else
    if env.sourceExists = false then
      (.error (.sourceNotFound (sourcePath env cfg)), [.walkTree])
    else
      match env.hashOf (sourcePath env cfg) with
      | none => (.error .sourceHashFailed, [.walkTree])
      | some srcHash =>
        (.ok (),
          [.walkTree] ++ env.targetDirs.flatMap (processTarget env cfg srcHash))

/-- C8: an unknown platform name yields an immediate error carrying
the full list of valid platform keys, with an empty effect trace — no
walk, no backup, no replacement — and that list enumerates exactly the
table's keys. -/
theorem C8_unknown_platform_no_mutation (env : ApplyEnv) (p : String)
    (h : p ∉ platformConfig.map Prod.fst) :
    ApplyGBE env p =
      (.error (.invalidPlatform p (platformConfig.map Prod.fst)), [])
    ∧ platformConfig.map Prod.fst = ["linux", "win64", "win32"] := by
  simp only [platformConfig, List.map_cons, List.map_nil, List.mem_cons,
    List.not_mem_nil, or_false, not_or] at h
  refine ⟨?_, by simp [platformConfig]⟩
  simp [ApplyGBE, lookupPlatform, platformConfig,
    Ne.symm h.1, Ne.symm h.2.1, Ne.symm h.2.2]

/-- Witness for C8 at a concrete environment and platform name. -/
theorem C8_unknown_platform_no_mutation_witness :
    ApplyGBE ⟨true, "/home/u", true, [], true, fun _ => none, fun _ => true,
        true, true⟩ "darwin" =
      (.error (.invalidPlatform "darwin" (platformConfig.map Prod.fst)), [])
    ∧ platformConfig.map Prod.fst = ["linux", "win64", "win32"] :=
  C8_unknown_platform_no_mutation
    ⟨true, "/home/u", true, [], true, fun _ => none, fun _ => true, true, true⟩
    "darwin" (by decide)

/-! ## steam.FetchDLCs

The DLC identifiers harvested by the regular expression
(`FindAllStringSubmatch` submatches, in match order, duplicates
included) are inserted into a Go map and the configuration lines are
generated per map key.  A Go map holds each key once; its iteration
order is unspecified, so the model enumerates the distinct identifiers
through `List.dedup`, a canonical representative of that order. -/

/-- The distinct harvested identifiers (Go map keys). -/
def uniqueDLCIds (ms : List String) : List String :=
  ms.dedup

/-- The `<dlc-id>=<dlc-name>` line data written to
`configs.app.ini`: one entry per distinct identifier whose name lookup
succeeded (lookup failures are logged and skipped). -/
def dlcLines (nameOf : String → Option String) (ms : List String) :
    List (String × String) :=
  (uniqueDLCIds ms).filterMap
    (fun i => (nameOf i).map (fun n => (i, n)))

/-- The full text of `configs.app.ini`. -/
def configsAppIni (nameOf : String → Option String) (ms : List String) :
    String :=
  "[app::dlcs]\nunlock_all=0\n"
    ++ String.join ((dlcLines nameOf ms).map
        (fun e => e.fst ++ "=" ++ e.snd ++ "\n"))

theorem map_fst_filterMap_name_sublist (nameOf : String → Option String) :
    ∀ l : List String,
      ((l.filterMap (fun i => (nameOf i).map (fun n => (i, n)))).map
        Prod.fst).Sublist l := by
  intro l
  induction l with
  | nil => simp
  | cons a rest ih =>
    cases h : nameOf a with
    | none =>
      simp only [List.filterMap_cons, h, Option.map_none]
      exact ih.cons a
    | some n =>
      simp only [List.filterMap_cons, h, Option.map_some, List.map_cons]
      exact ih.cons₂ a

/-- C10: the written configuration contains each harvested identifier
at most once — the identifier column of the generated lines has no
duplicates, however often an identifier occurred in the HTML response —
and every written identifier was harvested. -/
theorem C10_dlc_ids_deduplicated (nameOf : String → Option String)
    (ms : List String) :
    ((dlcLines nameOf ms).map Prod.fst).Nodup
    ∧ ∀ i, i ∈ (dlcLines nameOf ms).map Prod.fst → i ∈ ms := by
  have hsub := map_fst_filterMap_name_sublist nameOf (uniqueDLCIds ms)
  constructor
  · exact (List.nodup_dedup ms).sublist hsub
  · intro i hi
    exact (List.mem_dedup).mp (hsub.subset hi)

end GbeForkHelper
